import Mathlib

/-!
# Verification of the FFmpeg audio-filter-graph synthesizer

Shallow embedding of the audio filter-fragment builder from
`packages/renderer/src/select-composition.ts` (`stringifyTrim`,
`trimAndSetTempo`, `stringifyFfmpegFilter`).  JavaScript numbers are
modelled as exact rationals (`ℚ`); nullable numbers as `Option ℚ`;
a thrown exception as `Except.error`.

The three leaf collaborators that are not part of the embedded source
(`calculateATempo`, `ffmpegVolumeExpression`, and the fixed sample-rate
constant) are passed in as parameters, following the specification's
description of them as black boxes.
-/

/-- JavaScript truthiness of a nullable number: `null`, `0` (and `NaN`,
which has no rational counterpart) are falsy, every other number is truthy.
Used to embed `assetDuration ? … : …` and `assetDuration && …`. -/
def qTruthy : Option ℚ → Bool
  | none => false
  | some x => x ≠ 0

/-- `Math.round` of JavaScript: round half toward positive infinity,
i.e. `⌊x + 1/2⌋`. -/
def jsRound (q : ℚ) : ℤ := ⌊q + 1 / 2⌋

/-- `Number.prototype.toFixed(0)` of JavaScript: the integer `n`
minimizing `|n - x|`, ties broken toward the larger `n` — numerically the
same as `Math.round`, rendered in decimal.  (The `"-0"` output JavaScript
produces for `-1/2 < x < 0` is not modelled; the code only formats
non-negative delays.) -/
def jsToFixed0 (q : ℚ) : String := toString (jsRound q)

/-- Number of decimal places needed to render `q` exactly (searched up to
400, which covers every IEEE double; `none` for rationals without a
terminating decimal expansion, which cannot arise from doubles). -/
def decPlaces (q : ℚ) : Option ℕ :=
  (List.range 400).find? fun k => (q * 10 ^ k).den == 1

/-- Left-pad a digit string with zeros to length `k`. -/
def padZeroes (k : ℕ) (s : String) : String :=
  String.mk (List.replicate (k - s.length) '0') ++ s

/-- Plain (non-exponential) decimal notation of a rational, as JavaScript
renders a double whose magnitude lies in `[1e-6, 1e21)` (shortest exact
decimal form, e.g. `0.1`, `250000`). -/
def jsDecString (q : ℚ) : String :=
  match decPlaces q with
  | none => toString q
  | some k =>
    if k = 0 then toString q.num
    else
      let m := (q * 10 ^ k).num.natAbs
      (if q < 0 then "-" else "") ++ (toString (m / 10 ^ k) ++ ("." ++ padZeroes k (toString (m % 10 ^ k))))

/-- Smallest `k` with `1 ≤ |q| * 10^k`: the negated decimal exponent of a
rational with `0 < |q| < 1`. -/
def negExpOf (q : ℚ) : ℕ :=
  ((List.range 400).find? fun k => 1 ≤ |q| * 10 ^ k).getD 0

/-- Exponential notation of a rational, as JavaScript renders a double of
magnitude below `1e-6` (e.g. `6e-7`) or at least `1e21` (e.g. `1e+21`). -/
def jsExpString (q : ℚ) : String :=
  if |q| < 1 then
    jsDecString (q * 10 ^ negExpOf q) ++ ("e-" ++ toString (negExpOf q))
  else
    jsDecString (q / 10 ^ Nat.log 10 (Int.toNat ⌊|q|⌋)) ++ ("e+" ++ toString (Nat.log 10 (Int.toNat ⌊|q|⌋)))

/-- ECMAScript `ToString` applied to a number (restricted to exact
rational arithmetic): decimal notation for `0` and for magnitudes in
`[1e-6, 1e21)`, exponential notation otherwise. -/
def jsNumberToString (q : ℚ) : String :=
  if q = 0 then "0"
  else if |q| < 1 / 1000000 ∨ 10 ^ 21 ≤ |q| then jsExpString q
  else jsDecString q

/-- `stringifyTrim` from `select-composition.ts`: converts seconds to an
FFmpeg microsecond literal.  The source computes
`asString = toString (trim * 1e6) ++ "us"` and returns `"0us"` when
`asString` contains `"e-"`; by the ECMAScript `ToString` rules that marker
appears exactly when the value is nonzero with magnitude below `1e-6`
(nonnegative-exponent notation such as `1e+21` never contains `"e-"`),
so the branch is embedded by that semantic condition. -/
def stringifyTrim (trim : ℚ) : String :=
  let value := trim * 1000000
  if 0 < |value| ∧ |value| < 1 / 1000000 then "0us"
  else jsNumberToString value ++ "us"

/-- Result record of `trimAndSetTempo`. -/
structure TrimTempoResult where
  filter : List (Option String)
  actualTrimLeft : ℚ
  audibleDuration : ℚ
  deriving DecidableEq

/-- `trimAndSetTempo` from `select-composition.ts`.  `calculateATempo`
(the tempo-expression generator, a black box per the spec) is passed in;
it returns the tempo clause or `null`. -/
def trimAndSetTempo (calculateATempo : ℚ → Option String)
    (playbackRate trimLeft trimRight : ℚ)
    (forSeamlessAacConcatenation : Bool)
    (assetDuration : Option ℚ) : TrimTempoResult :=
  let trimRightOrAssetDuration :=
    if qTruthy assetDuration then min trimRight (assetDuration.getD 0) else trimRight
  if forSeamlessAacConcatenation then
    let actualTrimLeft := trimLeft / playbackRate
    let actualTrimRight := trimRightOrAssetDuration / playbackRate
    { filter := [calculateATempo playbackRate,
        some ("atrim=" ++ (stringifyTrim actualTrimLeft ++ (":" ++ stringifyTrim actualTrimRight)))],
      actualTrimLeft := actualTrimLeft,
      audibleDuration := actualTrimRight - actualTrimLeft }
  else
    { filter := [some ("atrim=" ++ (stringifyTrim trimLeft ++ (":" ++ stringifyTrim trimRightOrAssetDuration))),
        calculateATempo playbackRate],
      actualTrimLeft := trimLeft,
      audibleDuration := (trimRightOrAssetDuration - trimLeft) / playbackRate }

/-- Modelled from the spec: the volume-expression generator (an external
collaborator, `ffmpegVolumeExpression`) returns `{ value, eval }` where
`value = "1"` signals identity/no-op.  Both components are opaque
strings. -/
structure VolumeExpression where
  value : String
  eval : String
  deriving DecidableEq

/-- Argument record the assembler passes to the volume-expression
generator (`{volume, fps, trimLeft, allowAmplificationDuringRender}`); the
volume envelope descriptor itself is opaque and kept as a string. -/
structure VolumeArgs where
  volume : String
  fps : ℚ
  trimLeft : ℚ
  allowAmplificationDuringRender : Bool
  deriving DecidableEq

/-- The asset placement request consumed by `stringifyFfmpegFilter`. -/
structure FfmpegFilterArgs where
  trimLeft : ℚ
  trimRight : ℚ
  channels : ℕ
  startInVideo : ℚ
  volume : String
  fps : ℚ
  playbackRate : ℚ
  assetDuration : Option ℚ
  allowAmplificationDuringRender : Bool
  toneFrequency : Option ℚ
  chunkLengthInSeconds : ℚ
  forSeamlessAacConcatenation : Bool
  deriving DecidableEq

/-- The filter fragment result (`FilterWithoutPaddingApplied` in the
source: `ProcessedTrack` plus the `filter` string). -/
structure FilterWithoutPaddingApplied where
  filter : String
  pad_start : Option String
  pad_end : Option String
  deriving DecidableEq

instance {ε α : Type} [DecidableEq ε] [DecidableEq α] : DecidableEq (Except ε α) := fun
  | .error a, .error b =>
    if h : a = b then .isTrue (by rw [h]) else .isFalse (fun hc => h (by cases hc; rfl))
  | .error _, .ok _ => .isFalse (fun hc => by cases hc)
  | .ok _, .error _ => .isFalse (fun hc => by cases hc)
  | .ok a, .ok b =>
    if h : a = b then .isTrue (by rw [h]) else .isFalse (fun hc => h (by cases hc; rfl))

/-- Modelled from the spec: `truthy` filtering of the clause array — null
and empty stages are skipped, not emitted as empty clauses. -/
def filterTruthy (l : List (Option String)) : List String :=
  (l.filterMap id).filter fun s => !(s == "")

/-- The always-emitted format-conversion clause
(`aformat=sample_fmts=s32:sample_rates=<rate>`). -/
def aformatClause (sampleRate : ℕ) : String :=
  "aformat=sample_fmts=s32:sample_rates=" ++ toString sampleRate

/-- The volume clause: skipped when the computed multiplier is exactly
`"1"`, otherwise `volume=<value>:eval=<eval-mode>`. -/
def volumeClause (v : VolumeExpression) : Option String :=
  if v.value = "1" then none
  else some ("volume=" ++ (v.value ++ (":eval=" ++ v.eval)))

/-- The tone-shift clause: emitted only when `toneFrequency` is truthy and
not `1` (`asetrate=<rate>*<tone>,aresample=<rate>,atempo=1/<tone>`). -/
def toneClause (sampleRate : ℕ) : Option ℚ → Option String
  | none => none
  | some t =>
    if t ≠ 0 ∧ t ≠ 1 then
      some ("asetrate=" ++ (toString sampleRate ++ ("*" ++ (jsNumberToString t ++
        (",aresample=" ++ (toString sampleRate ++ (",atempo=1/" ++ jsNumberToString t)))))))
    else none

/-- The ordered, truthy-filtered clause list assembled by
`stringifyFfmpegFilter`: format conversion, then the trim/tempo stages,
then the optional volume clause, then the optional tone clause. -/
def ffmpegFilterClauses (sampleRate : ℕ) (trimAndTempoFilter : List (Option String))
    (volumeFilter : VolumeExpression) (toneFrequency : Option ℚ) : List String :=
  filterTruthy ([some (aformatClause sampleRate)] ++ trimAndTempoFilter ++
    [volumeClause volumeFilter, toneClause sampleRate toneFrequency])

/-- The `pad_end` directive: `apad=pad_len=<round(padAtEnd * sampleRate)>`
when `padAtEnd` exceeds the `1e-7` tolerance, otherwise none. -/
def padEndClause (sampleRate : ℕ) (padAtEnd : ℚ) : Option String :=
  if padAtEnd > 1 / 10000000 then
    some ("apad=pad_len=" ++ toString (jsRound (padAtEnd * sampleRate)))
  else none

/-- The `pad_start` directive: none when `startInVideoSeconds` is zero,
otherwise `adelay=` listing the millisecond delay (`toFixed(0)`) repeated
`channels + 1` times, joined by `|`. -/
def padStartClause (channels : ℕ) (startInVideoSeconds : ℚ) : Option String :=
  if startInVideoSeconds = 0 then none
  else some ("adelay=" ++
    String.intercalate "|" (List.replicate (channels + 1) (jsToFixed0 (startInVideoSeconds * 1000))))

/-- The no-contribution guard `assetDuration && trimLeft >= assetDuration`
(JavaScript truthiness: an `assetDuration` of `0` does not fire it). -/
def noContribution (assetDuration : Option ℚ) (trimLeft : ℚ) : Bool :=
  qTruthy assetDuration && decide (assetDuration.getD 0 ≤ trimLeft)

/-- The validation guard
`toneFrequency !== null && (toneFrequency <= 0 || toneFrequency > 2)`. -/
def toneFrequencyInvalid : Option ℚ → Bool
  | none => false
  | some t => decide (t ≤ 0 ∨ 2 < t)

/-- `stringifyFfmpegFilter` from `select-composition.ts`.  The fixed
sample rate (`DEFAULT_SAMPLE_RATE`), the tempo-expression generator
(`calculateATempo`) and the volume-expression generator
(`ffmpegVolumeExpression`) are external collaborators passed in as
parameters.  A thrown validation error is `Except.error`; a `null` result
(asset contributes nothing) is `Except.ok none`. -/
def stringifyFfmpegFilter (sampleRate : ℕ) (calculateATempo : ℚ → Option String)
    (ffmpegVolumeExpression : VolumeArgs → VolumeExpression)
    (args : FfmpegFilterArgs) : Except String (Option FilterWithoutPaddingApplied) :=
  let startInVideoSeconds := args.startInVideo / args.fps
  if noContribution args.assetDuration args.trimLeft then .ok none
  else if toneFrequencyInvalid args.toneFrequency then
    .error "toneFrequency must be a positive number between 0.01 and 2"
  else
    let r := trimAndSetTempo calculateATempo args.playbackRate args.trimLeft args.trimRight
      args.forSeamlessAacConcatenation args.assetDuration
    let volumeFilter := ffmpegVolumeExpression
      ⟨args.volume, args.fps, r.actualTrimLeft, args.allowAmplificationDuringRender⟩
    let padAtEnd := args.chunkLengthInSeconds - r.audibleDuration - startInVideoSeconds
    .ok (some
      { filter := "[0:a]" ++
          (String.intercalate "," (ffmpegFilterClauses sampleRate r.filter volumeFilter args.toneFrequency) ++
            "[a0]"),
        pad_start := padStartClause args.channels startInVideoSeconds,
        pad_end := padEndClause sampleRate padAtEnd })

section ConcreteEvaluation

attribute [local semireducible] Rat.mul Rat.add Rat.sub Rat.inv Rat.ofScientific

example : stringifyTrim 0 = "0us" := by decide
example : stringifyTrim 1 = "1000000us" := by decide
example : stringifyTrim (1 / 10000000) = "0.1us" := by decide
example : stringifyTrim (6 / 10000000000000) = "0us" := by decide
example : stringifyTrim (1 / 4) = "250000us" := by decide

example :
    stringifyFfmpegFilter 10 (fun _ => none) (fun _ => ⟨"1", "once"⟩)
      { trimLeft := 0, trimRight := 1, channels := 2, startInVideo := 0, volume := "v",
        fps := 1, playbackRate := 1, assetDuration := none,
        allowAmplificationDuringRender := false, toneFrequency := none,
        chunkLengthInSeconds := 3, forSeamlessAacConcatenation := false } =
    .ok (some
      { filter := "[0:a]aformat=sample_fmts=s32:sample_rates=10,atrim=0us:1000000us[a0]",
        pad_start := none,
        pad_end := some "apad=pad_len=20" }) := by decide

/-- The clamped right trim bound used by `trimAndSetTempo` reduces to
`trimRight` whenever `trimRight` does not exceed a known `assetDuration`
(or the duration is unknown / falsy). -/
theorem clamp_eq_trimRight (trimRight : ℚ) (assetDuration : Option ℚ)
    (had : ∀ d, assetDuration = some d → trimRight ≤ d) :
    (if qTruthy assetDuration then min trimRight (assetDuration.getD 0) else trimRight) = trimRight := by
  match assetDuration with
  | none => rfl
  | some d =>
    by_cases hd : d = 0
    · simp [qTruthy, hd]
    · simp [qTruthy, hd, min_eq_left (had d rfl)]

/-- C1: with `trimLeft ≥ 0`, `trimRight ≥ trimLeft`, `playbackRate > 0`,
and `trimRight` not exceeding `assetDuration` when the duration is known,
`trimAndSetTempo` returns the same `audibleDuration` in seamless mode and
in default mode, equal to `(trimRight - trimLeft) / playbackRate` in
both: mode choice is duration-neutral. -/
theorem trimAndSetTempo_audibleDuration_mode_neutral
    (calculateATempo : ℚ → Option String) (playbackRate trimLeft trimRight : ℚ)
    (assetDuration : Option ℚ)
    (hl : 0 ≤ trimLeft) (hlr : trimLeft ≤ trimRight) (hp : 0 < playbackRate)
    (had : ∀ d, assetDuration = some d → trimRight ≤ d) :
    (trimAndSetTempo calculateATempo playbackRate trimLeft trimRight true
        assetDuration).audibleDuration = (trimRight - trimLeft) / playbackRate ∧
    (trimAndSetTempo calculateATempo playbackRate trimLeft trimRight false
        assetDuration).audibleDuration = (trimRight - trimLeft) / playbackRate := by
  constructor
  · simp only [trimAndSetTempo, clamp_eq_trimRight trimRight assetDuration had, if_true]
    exact div_sub_div_same trimRight trimLeft playbackRate
  · simp [trimAndSetTempo, clamp_eq_trimRight trimRight assetDuration had]

/-- C1 witness: at `playbackRate = 2`, `trimLeft = 1`, `trimRight = 3`,
unknown asset duration, both modes yield `audibleDuration = (3 - 1) / 2`. -/
theorem trimAndSetTempo_audibleDuration_mode_neutral_witness :
    (trimAndSetTempo (fun _ => none) 2 1 3 true none).audibleDuration = (3 - 1) / 2 ∧
    (trimAndSetTempo (fun _ => none) 2 1 3 false none).audibleDuration = (3 - 1) / 2 :=
  trimAndSetTempo_audibleDuration_mode_neutral (fun _ => none) 2 1 3 none
    (by norm_num) (by norm_num) (by norm_num) (fun d h => by cases h)

/-- C2 counterexample: the duration `1e-7` seconds has magnitude below
`1e-6` seconds, yet `stringifyTrim` renders it as `"0.1us"`, not `"0us"`
(the `"0us"` normalization fires on the post-multiplication microsecond
value, not on the seconds input). -/
theorem stringifyTrim_small_seconds_counterexample :
    |(1 / 10000000 : ℚ)| < 1 / 1000000 ∧ stringifyTrim (1 / 10000000) ≠ "0us" := by
  constructor
  · rw [abs_of_pos (by norm_num)]; norm_num
  · decide

/-- C2 (amended): `stringifyTrim` is a deterministic function of its
input, and any duration of magnitude below `1e-6` microseconds — that is,
below `1e-12` seconds — formats to `"0us"`. -/
theorem stringifyTrim_deterministic_and_tiny_zero (t₁ t₂ : ℚ) (h : t₁ = t₂) :
    stringifyTrim t₁ = stringifyTrim t₂ ∧
      (|t₁| < 1 / 1000000000000 → stringifyTrim t₁ = "0us") := by
  subst h
  refine ⟨rfl, fun hsmall => ?_⟩
  by_cases h0 : t₁ = 0
  · subst h0; decide
  · unfold stringifyTrim
    rw [if_pos]
    refine ⟨?_, ?_⟩
    · simpa [abs_pos] using mul_ne_zero h0 (by norm_num : (1000000 : ℚ) ≠ 0)
    · calc |t₁ * 1000000| = |t₁| * 1000000 := by
            rw [abs_mul]; norm_num
        _ < (1 / 1000000000000) * 1000000 := by
            have h6 : (0 : ℚ) < 1000000 := by norm_num
            exact (mul_lt_mul_right h6).mpr hsmall
        _ = 1 / 1000000 := by norm_num

/-- C2 witness: the duration `1e-13` seconds formats to `"0us"`. -/
theorem stringifyTrim_deterministic_and_tiny_zero_witness :
    stringifyTrim (1 / 10000000000000) = "0us" :=
  (stringifyTrim_deterministic_and_tiny_zero (1 / 10000000000000) (1 / 10000000000000)
    rfl).2 (by rw [abs_of_pos (by norm_num)]; norm_num)

/-- C4: in seamless mode `trimAndSetTempo` emits the tempo clause before
the trim clause and divides both (asset-duration-clamped) trim bounds by
`playbackRate` inside the trim clause; in default mode it emits the trim
clause first, built from the rate-unadjusted bounds, followed by the
tempo clause. -/
theorem trimAndSetTempo_filter_order (calculateATempo : ℚ → Option String)
    (playbackRate trimLeft trimRight : ℚ) (assetDuration : Option ℚ) :
    (trimAndSetTempo calculateATempo playbackRate trimLeft trimRight true
        assetDuration).filter =
      [calculateATempo playbackRate,
       some ("atrim=" ++ (stringifyTrim (trimLeft / playbackRate) ++ (":" ++
         stringifyTrim ((if qTruthy assetDuration then min trimRight (assetDuration.getD 0)
           else trimRight) / playbackRate))))] ∧
    (trimAndSetTempo calculateATempo playbackRate trimLeft trimRight false
        assetDuration).filter =
      [some ("atrim=" ++ (stringifyTrim trimLeft ++ (":" ++
         stringifyTrim (if qTruthy assetDuration then min trimRight (assetDuration.getD 0)
           else trimRight)))),
       calculateATempo playbackRate] :=
  ⟨rfl, rfl⟩

/-- When neither guard fires, `stringifyFfmpegFilter` succeeds with the
assembled fragment (the `let`-bindings of the source spelled out). -/
theorem stringifyFfmpegFilter_success (sr : ℕ) (f : ℚ → Option String)
    (g : VolumeArgs → VolumeExpression) (args : FfmpegFilterArgs)
    (h1 : noContribution args.assetDuration args.trimLeft = false)
    (h2 : toneFrequencyInvalid args.toneFrequency = false) :
    stringifyFfmpegFilter sr f g args = .ok (some
      { filter := "[0:a]" ++
          (String.intercalate ","
            (ffmpegFilterClauses sr
              (trimAndSetTempo f args.playbackRate args.trimLeft args.trimRight
                args.forSeamlessAacConcatenation args.assetDuration).filter
              (g ⟨args.volume, args.fps,
                (trimAndSetTempo f args.playbackRate args.trimLeft args.trimRight
                  args.forSeamlessAacConcatenation args.assetDuration).actualTrimLeft,
                args.allowAmplificationDuringRender⟩)
              args.toneFrequency) ++ "[a0]"),
        pad_start := padStartClause args.channels (args.startInVideo / args.fps),
        pad_end := padEndClause sr (args.chunkLengthInSeconds -
          (trimAndSetTempo f args.playbackRate args.trimLeft args.trimRight
            args.forSeamlessAacConcatenation args.assetDuration).audibleDuration -
          args.startInVideo / args.fps) }) := by
  simp [stringifyFfmpegFilter, h1, h2]

/-- A non-null success forces both guards to be off. -/
theorem stringifyFfmpegFilter_ok_some_guards (sr : ℕ) (f : ℚ → Option String)
    (g : VolumeArgs → VolumeExpression) (args : FfmpegFilterArgs)
    (r : FilterWithoutPaddingApplied)
    (h : stringifyFfmpegFilter sr f g args = .ok (some r)) :
    noContribution args.assetDuration args.trimLeft = false ∧
      toneFrequencyInvalid args.toneFrequency = false := by
  cases h1 : noContribution args.assetDuration args.trimLeft
  · cases h2 : toneFrequencyInvalid args.toneFrequency
    · exact ⟨rfl, rfl⟩
    · simp [stringifyFfmpegFilter, h1, h2] at h
  · simp [stringifyFfmpegFilter, h1] at h

/-- C3 counterexample: a request whose `assetDuration` is known (`some 0`)
with `trimLeft = 5 ≥ 0 = assetDuration` nevertheless does not return
null — the no-fragment guard uses JavaScript truthiness, so a zero
duration never fires it. -/
theorem stringifyFfmpegFilter_null_check_counterexample :
    stringifyFfmpegFilter 10 (fun _ => none) (fun _ => ⟨"1", "once"⟩)
      { trimLeft := 5, trimRight := 5, channels := 2, startInVideo := 0, volume := "v",
        fps := 1, playbackRate := 1, assetDuration := some 0,
        allowAmplificationDuringRender := false, toneFrequency := none,
        chunkLengthInSeconds := 0, forSeamlessAacConcatenation := false } ≠
      .ok none := by decide

/-- C3 (amended): whenever `assetDuration` is known and positive and
`trimLeft ≥ assetDuration`, `stringifyFfmpegFilter` returns null (no
fragment); in particular with `trimLeft = 5` and `assetDuration = 3`. -/
theorem stringifyFfmpegFilter_no_contribution (sr : ℕ) (f : ℚ → Option String)
    (g : VolumeArgs → VolumeExpression) (args : FfmpegFilterArgs) (d : ℚ)
    (hd : args.assetDuration = some d) (h0 : 0 < d) (hge : d ≤ args.trimLeft) :
    stringifyFfmpegFilter sr f g args = .ok none := by
  have hnc : noContribution args.assetDuration args.trimLeft = true := by
    simp [noContribution, qTruthy, hd, h0.ne', hge]
  simp [stringifyFfmpegFilter, hnc]

/-- C3 witness: `trimLeft = 5`, `assetDuration = 3` returns null. -/
theorem stringifyFfmpegFilter_no_contribution_witness :
    stringifyFfmpegFilter 10 (fun _ => none) (fun _ => ⟨"1", "once"⟩)
      { trimLeft := 5, trimRight := 6, channels := 2, startInVideo := 0, volume := "v",
        fps := 1, playbackRate := 1, assetDuration := some 3,
        allowAmplificationDuringRender := false, toneFrequency := none,
        chunkLengthInSeconds := 0, forSeamlessAacConcatenation := false } = .ok none :=
  stringifyFfmpegFilter_no_contribution 10 (fun _ => none) (fun _ => ⟨"1", "once"⟩)
    _ 3 rfl (by norm_num) (by norm_num)

/-- C5 counterexample: with `toneFrequency = 3` (outside `(0, 2]`) but an
entirely-trimmed-away asset (`assetDuration = 3`, `trimLeft = 5`), the
function returns null instead of throwing — so "throws exactly when
`toneFrequency` is non-null and outside `(0, 2]`" fails as stated. -/
theorem stringifyFfmpegFilter_validation_skipped_counterexample :
    stringifyFfmpegFilter 10 (fun _ => none) (fun _ => ⟨"1", "once"⟩)
      { trimLeft := 5, trimRight := 6, channels := 2, startInVideo := 0, volume := "v",
        fps := 1, playbackRate := 1, assetDuration := some 3,
        allowAmplificationDuringRender := false, toneFrequency := some 3,
        chunkLengthInSeconds := 0, forSeamlessAacConcatenation := false } =
      .ok none := by decide

/-- C5 (amended): among requests on which the no-contribution guard does
not fire, `stringifyFfmpegFilter` throws the validation error exactly
when `toneFrequency` is provided and lies outside `(0, 2]` (so
`toneFrequency = 3` and `toneFrequency = 0` fail, `toneFrequency = 2`
succeeds, and `toneFrequency = null` never triggers it). -/
theorem stringifyFfmpegFilter_toneFrequency_validation (sr : ℕ)
    (f : ℚ → Option String) (g : VolumeArgs → VolumeExpression)
    (args : FfmpegFilterArgs)
    (h : noContribution args.assetDuration args.trimLeft = false) :
    (∃ e, stringifyFfmpegFilter sr f g args = .error e) ↔
      ∃ t, args.toneFrequency = some t ∧ (t ≤ 0 ∨ 2 < t) := by
  constructor
  · rintro ⟨e, he⟩
    cases hti : toneFrequencyInvalid args.toneFrequency
    · rw [stringifyFfmpegFilter_success sr f g args h hti] at he
      cases he
    · match hty : args.toneFrequency with
      | none => rw [hty] at hti; cases hti
      | some t =>
        rw [hty] at hti
        exact ⟨t, rfl, of_decide_eq_true hti⟩
  · rintro ⟨t, ht, hout⟩
    have hti : toneFrequencyInvalid args.toneFrequency = true := by
      rw [ht]; exact decide_eq_true hout
    exact ⟨"toneFrequency must be a positive number between 0.01 and 2",
      by simp [stringifyFfmpegFilter, h, hti]⟩

/-- C5 witness: with no asset-duration pruning, `toneFrequency = 3`
produces the validation error. -/
theorem stringifyFfmpegFilter_toneFrequency_validation_witness :
    ∃ e, stringifyFfmpegFilter 10 (fun _ => none) (fun _ => ⟨"1", "once"⟩)
      { trimLeft := 0, trimRight := 1, channels := 2, startInVideo := 0, volume := "v",
        fps := 1, playbackRate := 1, assetDuration := none,
        allowAmplificationDuringRender := false, toneFrequency := some 3,
        chunkLengthInSeconds := 1, forSeamlessAacConcatenation := false } = .error e :=
  (stringifyFfmpegFilter_toneFrequency_validation 10 (fun _ => none)
    (fun _ => ⟨"1", "once"⟩) _ (by decide)).mpr ⟨3, rfl, Or.inr (by norm_num)⟩

/-- C9: an `assetDuration` of exactly `0` behaves like an unknown (null)
duration — the whole computation agrees with the `assetDuration = none`
run (no null-return, no clamping), and when `toneFrequency` is valid the
request still produces a filter fragment rather than null. -/
theorem stringifyFfmpegFilter_zero_assetDuration_as_unknown (sr : ℕ)
    (f : ℚ → Option String) (g : VolumeArgs → VolumeExpression)
    (args : FfmpegFilterArgs) (h0 : args.assetDuration = some 0) :
    stringifyFfmpegFilter sr f g args =
      stringifyFfmpegFilter sr f g { args with assetDuration := none } ∧
    (toneFrequencyInvalid args.toneFrequency = false →
      ∃ r, stringifyFfmpegFilter sr f g args = .ok (some r)) := by
  have htr : trimAndSetTempo f args.playbackRate args.trimLeft args.trimRight
      args.forSeamlessAacConcatenation args.assetDuration =
      trimAndSetTempo f args.playbackRate args.trimLeft args.trimRight
        args.forSeamlessAacConcatenation none := by
    rw [h0]; simp [trimAndSetTempo, qTruthy]
  have hnc : noContribution args.assetDuration args.trimLeft = false := by
    simp [noContribution, qTruthy, h0]
  have hnc2 : noContribution none args.trimLeft = false := by
    simp [noContribution, qTruthy]
  constructor
  · cases hti : toneFrequencyInvalid args.toneFrequency
    · rw [stringifyFfmpegFilter_success sr f g args hnc hti,
        stringifyFfmpegFilter_success sr f g { args with assetDuration := none }
          (by simpa using hnc2) hti]
      simp [htr]
    · simp [stringifyFfmpegFilter, hnc, hnc2, hti]
  · intro hti
    exact ⟨_, stringifyFfmpegFilter_success sr f g args hnc hti⟩

/-- C9 witness: a concrete request with `assetDuration = 0` produces the
same fragment as the `assetDuration = null` request. -/
theorem stringifyFfmpegFilter_zero_assetDuration_as_unknown_witness :
    (stringifyFfmpegFilter 10 (fun _ => none) (fun _ => ⟨"1", "once"⟩)
      { trimLeft := 0, trimRight := 1, channels := 2, startInVideo := 0, volume := "v",
        fps := 1, playbackRate := 1, assetDuration := some 0,
        allowAmplificationDuringRender := false, toneFrequency := none,
        chunkLengthInSeconds := 1, forSeamlessAacConcatenation := false } =
      stringifyFfmpegFilter 10 (fun _ => none) (fun _ => ⟨"1", "once"⟩)
        { trimLeft := 0, trimRight := 1, channels := 2, startInVideo := 0, volume := "v",
          fps := 1, playbackRate := 1, assetDuration := none,
          allowAmplificationDuringRender := false, toneFrequency := none,
          chunkLengthInSeconds := 1, forSeamlessAacConcatenation := false }) ∧
    (toneFrequencyInvalid none = false →
      ∃ r, stringifyFfmpegFilter 10 (fun _ => none) (fun _ => ⟨"1", "once"⟩)
        { trimLeft := 0, trimRight := 1, channels := 2, startInVideo := 0, volume := "v",
          fps := 1, playbackRate := 1, assetDuration := some 0,
          allowAmplificationDuringRender := false, toneFrequency := none,
          chunkLengthInSeconds := 1, forSeamlessAacConcatenation := false } = .ok (some r)) :=
  stringifyFfmpegFilter_zero_assetDuration_as_unknown 10 (fun _ => none)
    (fun _ => ⟨"1", "once"⟩) _ rfl

/-- C10: the no-contribution check precedes `toneFrequency` validation —
with a known positive `assetDuration`, `trimLeft ≥ assetDuration`, and an
out-of-range `toneFrequency`, the function returns null and does not
throw. -/
theorem stringifyFfmpegFilter_null_precedes_validation (sr : ℕ)
    (f : ℚ → Option String) (g : VolumeArgs → VolumeExpression)
    (args : FfmpegFilterArgs) (d t : ℚ)
    (hd : args.assetDuration = some d) (h0 : 0 < d) (hge : d ≤ args.trimLeft)
    (ht : args.toneFrequency = some t) (hout : t ≤ 0 ∨ 2 < t) :
    stringifyFfmpegFilter sr f g args = .ok none := by
  have hnc : noContribution args.assetDuration args.trimLeft = true := by
    simp [noContribution, qTruthy, hd, h0.ne', hge]
  simp [stringifyFfmpegFilter, hnc]

/-- C10 witness: `assetDuration = 3`, `trimLeft = 5`, `toneFrequency = 3`
yields null, not an error. -/
theorem stringifyFfmpegFilter_null_precedes_validation_witness :
    stringifyFfmpegFilter 10 (fun _ => none) (fun _ => ⟨"1", "once"⟩)
      { trimLeft := 5, trimRight := 6, channels := 2, startInVideo := 0, volume := "v",
        fps := 1, playbackRate := 1, assetDuration := some 3,
        allowAmplificationDuringRender := false, toneFrequency := some 3,
        chunkLengthInSeconds := 0, forSeamlessAacConcatenation := true } = .ok none :=
  stringifyFfmpegFilter_null_precedes_validation 10 (fun _ => none)
    (fun _ => ⟨"1", "once"⟩) _ 3 3 rfl (by norm_num) (by norm_num) rfl
    (Or.inr (by norm_num))

/-- Rounding an exact integer number of samples is the identity. -/
theorem jsRound_intCast (z : ℤ) : jsRound (z : ℚ) = z := by
  unfold jsRound
  rw [Int.floor_int_add]
  norm_num

/-- The audible duration computed by the trim/tempo composer for a
request, as consumed by the padding computation. -/
def audibleDurationOf (f : ℚ → Option String) (args : FfmpegFilterArgs) : ℚ :=
  (trimAndSetTempo f args.playbackRate args.trimLeft args.trimRight
    args.forSeamlessAacConcatenation args.assetDuration).audibleDuration

/-- C6: for every non-null result, `pad_end` is governed by
`padAtEnd = chunkLengthInSeconds - audibleDuration - startInVideo / fps`:
above the `1e-7` tolerance it is an `apad` directive whose `pad_len` is
`padAtEnd` times the sample rate rounded to the nearest integer,
otherwise it is null; a 2-second shortfall yields
`apad=pad_len=<2 * sampleRate>`. -/
theorem stringifyFfmpegFilter_pad_end_spec (sr : ℕ) (f : ℚ → Option String)
    (g : VolumeArgs → VolumeExpression) (args : FfmpegFilterArgs)
    (r : FilterWithoutPaddingApplied) (padAtEnd : ℚ)
    (h : stringifyFfmpegFilter sr f g args = .ok (some r))
    (hpe : padAtEnd = args.chunkLengthInSeconds - audibleDurationOf f args -
      args.startInVideo / args.fps) :
    r.pad_end = (if padAtEnd > 1 / 10000000 then
        some ("apad=pad_len=" ++ toString (jsRound (padAtEnd * sr)))
      else none) ∧
    (padAtEnd = 2 → r.pad_end = some ("apad=pad_len=" ++ toString (2 * (sr : ℤ)))) := by
  obtain ⟨hnc, hti⟩ := stringifyFfmpegFilter_ok_some_guards sr f g args r h
  rw [stringifyFfmpegFilter_success sr f g args hnc hti] at h
  have hr : r.pad_end = padEndClause sr (args.chunkLengthInSeconds -
      (trimAndSetTempo f args.playbackRate args.trimLeft args.trimRight
        args.forSeamlessAacConcatenation args.assetDuration).audibleDuration -
      args.startInVideo / args.fps) := by
    obtain rfl : _ = r := by simpa using h
    rfl
  rw [audibleDurationOf] at hpe
  rw [hr, ← hpe]
  constructor
  · rfl
  · intro h2
    rw [h2, padEndClause, if_pos (by norm_num)]
    have hcast : (2 : ℚ) * (sr : ℚ) = ((2 * (sr : ℤ) : ℤ) : ℚ) := by push_cast; ring
    rw [hcast, jsRound_intCast]

/-- C6 witness: a request whose chunk is 2 seconds longer than the
audible span plus start offset gets `apad=pad_len=<2 * sampleRate>`
(sample rate 10, so `pad_len = 20`). -/
theorem stringifyFfmpegFilter_pad_end_spec_witness :
    (({ filter := "[0:a]aformat=sample_fmts=s32:sample_rates=10,atrim=0us:1000000us[a0]",
        pad_start := none,
        pad_end := some "apad=pad_len=20" } : FilterWithoutPaddingApplied)).pad_end =
      some ("apad=pad_len=" ++ toString (2 * (10 : ℤ))) :=
  (stringifyFfmpegFilter_pad_end_spec 10 (fun _ => none) (fun _ => ⟨"1", "once"⟩)
    { trimLeft := 0, trimRight := 1, channels := 2, startInVideo := 0, volume := "v",
      fps := 1, playbackRate := 1, assetDuration := none,
      allowAmplificationDuringRender := false, toneFrequency := none,
      chunkLengthInSeconds := 3, forSeamlessAacConcatenation := false }
    _ 2 (by decide) (by decide)).2 rfl

/-- C7: for every non-null result, `pad_start` is null exactly when
`startInVideo / fps` is zero; otherwise it is an `adelay` directive
listing the rounded millisecond delay repeated `channels + 1` times; with
`startInVideo = fps` and `channels = 2` it lists exactly 3 identical
values of 1000. -/
theorem stringifyFfmpegFilter_pad_start_spec (sr : ℕ) (f : ℚ → Option String)
    (g : VolumeArgs → VolumeExpression) (args : FfmpegFilterArgs)
    (r : FilterWithoutPaddingApplied)
    (h : stringifyFfmpegFilter sr f g args = .ok (some r)) :
    (r.pad_start = none ↔ args.startInVideo / args.fps = 0) ∧
    (args.startInVideo / args.fps ≠ 0 →
      r.pad_start = some ("adelay=" ++ String.intercalate "|"
        (List.replicate (args.channels + 1)
          (jsToFixed0 (args.startInVideo / args.fps * 1000))))) ∧
    (args.startInVideo = args.fps → args.fps ≠ 0 → args.channels = 2 →
      r.pad_start = some "adelay=1000|1000|1000") := by
  obtain ⟨hnc, hti⟩ := stringifyFfmpegFilter_ok_some_guards sr f g args r h
  rw [stringifyFfmpegFilter_success sr f g args hnc hti] at h
  have hr : r.pad_start = padStartClause args.channels (args.startInVideo / args.fps) := by
    obtain rfl : _ = r := by simpa using h
    rfl
  refine ⟨?_, ?_, ?_⟩
  · rw [hr, padStartClause]
    by_cases hz : args.startInVideo / args.fps = 0 <;> simp [hz]
  · intro hz
    rw [hr, padStartClause, if_neg hz]
  · intro heq hfps hch
    have hone : args.startInVideo / args.fps = 1 := by rw [heq]; exact div_self hfps
    rw [hr, hone, hch]
    decide

/-- C7 witness: `startInVideo = fps = 30`, `channels = 2` yields
`adelay=1000|1000|1000`. -/
theorem stringifyFfmpegFilter_pad_start_spec_witness :
    (({ filter := "[0:a]aformat=sample_fmts=s32:sample_rates=10,atrim=0us:1000000us[a0]",
        pad_start := some "adelay=1000|1000|1000",
        pad_end := some "apad=pad_len=10" } : FilterWithoutPaddingApplied)).pad_start =
      some "adelay=1000|1000|1000" :=
  (stringifyFfmpegFilter_pad_start_spec 10 (fun _ => none) (fun _ => ⟨"1", "once"⟩)
    { trimLeft := 0, trimRight := 1, channels := 2, startInVideo := 30, volume := "v",
      fps := 30, playbackRate := 1, assetDuration := none,
      allowAmplificationDuringRender := false, toneFrequency := none,
      chunkLengthInSeconds := 3, forSeamlessAacConcatenation := false }
    _ (by decide)).2.2 rfl (by norm_num) rfl

/-- A clause string is a volume clause when it extends the `volume=`
literal. -/
def IsVolumeClause (s : String) : Prop := ∃ u, s = "volume=" ++ u

/-- A string whose first character differs from `v` is not a volume
clause. -/
theorem not_isVolumeClause_of_head (s : String) (c : Char)
    (hc : s.data.head? = some c) (hne : c ≠ 'v') : ¬ IsVolumeClause s := by
  rintro ⟨u, rfl⟩
  rw [String.data_append] at hc
  have hv : ("volume=" : String).data = 'v' :: ['o', 'l', 'u', 'm', 'e', '='] := rfl
  rw [hv] at hc
  simp only [List.cons_append, List.head?_cons, Option.some.injEq] at hc
  exact hne hc.symm

theorem not_isVolumeClause_aformat (sr : ℕ) : ¬ IsVolumeClause (aformatClause sr) :=
  not_isVolumeClause_of_head _ 'a' rfl (by decide)

theorem not_isVolumeClause_atrim (x : String) : ¬ IsVolumeClause ("atrim=" ++ x) :=
  not_isVolumeClause_of_head _ 'a' rfl (by decide)

theorem not_isVolumeClause_asetrate (x : String) : ¬ IsVolumeClause ("asetrate=" ++ x) :=
  not_isVolumeClause_of_head _ 'a' rfl (by decide)

/-- A string with a first character is nonempty. -/
theorem ne_empty_of_head (s : String) (c : Char) (hc : s.data.head? = some c) :
    s ≠ "" := by
  intro he
  rw [he] at hc
  exact Option.noConfusion hc

/-- Membership in the truthy-filtered clause list. -/
theorem mem_filterTruthy {s : String} {l : List (Option String)} :
    s ∈ filterTruthy l ↔ some s ∈ l ∧ ¬ s = "" := by
  simp [filterTruthy, List.mem_filter, List.mem_filterMap]

/-- Truthy filtering distributes over list concatenation. -/
theorem filterTruthy_append (l m : List (Option String)) :
    filterTruthy (l ++ m) = filterTruthy l ++ filterTruthy m := by
  simp [filterTruthy]

/-- Every clause the trim/tempo composer emits is either an `atrim=`
clause or came from the tempo-expression generator. -/
theorem mem_trimAndSetTempo_filter (f : ℚ → Option String)
    (pr l r : ℚ) (b : Bool) (ad : Option ℚ) (s : String)
    (hs : some s ∈ (trimAndSetTempo f pr l r b ad).filter) :
    (∃ x, s = "atrim=" ++ x) ∨ f pr = some s := by
  cases b <;> simp only [trimAndSetTempo, if_true, if_false, Bool.false_eq_true,
    List.mem_cons, List.mem_singleton, List.not_mem_nil, or_false] at hs
  · rcases hs with h1 | h1
    · exact Or.inl ⟨_, Option.some.inj h1⟩
    · exact Or.inr h1.symm
  · rcases hs with h1 | h1
    · exact Or.inr h1.symm
    · exact Or.inl ⟨_, Option.some.inj h1⟩

/-- A clause emitted by the tone-shift stage starts with `asetrate=`. -/
theorem toneClause_shape (sr : ℕ) (tone : Option ℚ) (s : String)
    (hs : toneClause sr tone = some s) : ∃ x, s = "asetrate=" ++ x := by
  match tone with
  | none => exact Option.noConfusion hs
  | some t =>
    simp only [toneClause] at hs
    split at hs
    · exact ⟨_, (Option.some.inj hs).symm⟩
    · exact Option.noConfusion hs

/-- C8: for every non-null result, the assembled clause list contains a
`volume=` clause if and only if the volume service's computed multiplier
is not exactly `"1"`: with multiplier `"1"` no clause of the list is a
volume clause, and with any other multiplier the list splits around
exactly one clause `volume=<value>:eval=<eval-mode>` (assuming the
black-box tempo clause is not itself a `volume=` string). -/
theorem stringifyFfmpegFilter_volume_clause_spec (sr : ℕ) (f : ℚ → Option String)
    (g : VolumeArgs → VolumeExpression) (args : FfmpegFilterArgs)
    (r : FilterWithoutPaddingApplied) (vf : VolumeExpression)
    (h : stringifyFfmpegFilter sr f g args = .ok (some r))
    (hvf : vf = g ⟨args.volume, args.fps,
      (trimAndSetTempo f args.playbackRate args.trimLeft args.trimRight
        args.forSeamlessAacConcatenation args.assetDuration).actualTrimLeft,
      args.allowAmplificationDuringRender⟩)
    (hf : ∀ t, f args.playbackRate = some t → ¬ IsVolumeClause t) :
    r.filter = "[0:a]" ++ (String.intercalate ","
      (ffmpegFilterClauses sr
        (trimAndSetTempo f args.playbackRate args.trimLeft args.trimRight
          args.forSeamlessAacConcatenation args.assetDuration).filter
        vf args.toneFrequency) ++ "[a0]") ∧
    (vf.value = "1" →
      ∀ s ∈ ffmpegFilterClauses sr
        (trimAndSetTempo f args.playbackRate args.trimLeft args.trimRight
          args.forSeamlessAacConcatenation args.assetDuration).filter
        vf args.toneFrequency, ¬ IsVolumeClause s) ∧
    (vf.value ≠ "1" →
      ∃ pre post,
        ffmpegFilterClauses sr
          (trimAndSetTempo f args.playbackRate args.trimLeft args.trimRight
            args.forSeamlessAacConcatenation args.assetDuration).filter
          vf args.toneFrequency =
          pre ++ ("volume=" ++ (vf.value ++ (":eval=" ++ vf.eval))) :: post ∧
        (∀ s ∈ pre, ¬ IsVolumeClause s) ∧ (∀ s ∈ post, ¬ IsVolumeClause s)) := by
  obtain ⟨hnc, hti⟩ := stringifyFfmpegFilter_ok_some_guards sr f g args r h
  rw [stringifyFfmpegFilter_success sr f g args hnc hti] at h
  obtain rfl : _ = r := by simpa using h
  refine ⟨by rw [hvf], ?_, ?_⟩
  · intro h1 s hs
    rw [ffmpegFilterClauses, mem_filterTruthy] at hs
    obtain ⟨hmem, -⟩ := hs
    simp only [List.append_assoc, List.mem_append, List.mem_singleton,
      List.mem_cons, List.not_mem_nil, or_false] at hmem
    rcases hmem with h2 | h2 | h2 | h2
    · exact fun hc => not_isVolumeClause_aformat sr (Option.some.inj h2 ▸ hc)
    · rcases mem_trimAndSetTempo_filter _ _ _ _ _ _ _ h2 with ⟨x, rfl⟩ | h3
      · exact not_isVolumeClause_atrim x
      · exact hf s h3
    · rw [volumeClause, if_pos h1] at h2
      exact Option.noConfusion h2
    · obtain ⟨x, rfl⟩ := toneClause_shape sr args.toneFrequency s h2.symm
      exact not_isVolumeClause_asetrate x
  · intro h1
    have hvol : volumeClause vf = some ("volume=" ++ (vf.value ++ (":eval=" ++ vf.eval))) := by
      rw [volumeClause, if_neg h1]
    refine ⟨filterTruthy ([some (aformatClause sr)] ++
        (trimAndSetTempo f args.playbackRate args.trimLeft args.trimRight
          args.forSeamlessAacConcatenation args.assetDuration).filter),
      filterTruthy [toneClause sr args.toneFrequency], ?_, ?_, ?_⟩
    · have hmid : filterTruthy [volumeClause vf] =
          ["volume=" ++ (vf.value ++ (":eval=" ++ vf.eval))] := by
        rw [hvol]
        simp [filterTruthy,
          ne_empty_of_head ("volume=" ++ (vf.value ++ (":eval=" ++ vf.eval))) 'v' rfl]
      rw [ffmpegFilterClauses,
        show [some (aformatClause sr)] ++
            (trimAndSetTempo f args.playbackRate args.trimLeft args.trimRight
              args.forSeamlessAacConcatenation args.assetDuration).filter ++
            [volumeClause vf, toneClause sr args.toneFrequency] =
          ([some (aformatClause sr)] ++
            (trimAndSetTempo f args.playbackRate args.trimLeft args.trimRight
              args.forSeamlessAacConcatenation args.assetDuration).filter) ++
            ([volumeClause vf] ++ [toneClause sr args.toneFrequency]) from rfl]
      simp only [filterTruthy_append]
      rw [hmid]
      simp
    · intro s hs
      rw [mem_filterTruthy] at hs
      obtain ⟨hmem, -⟩ := hs
      simp only [List.mem_append, List.mem_singleton] at hmem
      rcases hmem with h2 | h2
      · exact fun hc => not_isVolumeClause_aformat sr (Option.some.inj h2 ▸ hc)
      · rcases mem_trimAndSetTempo_filter _ _ _ _ _ _ _ h2 with ⟨x, rfl⟩ | h3
        · exact not_isVolumeClause_atrim x
        · exact hf s h3
    · intro s hs
      rw [mem_filterTruthy] at hs
      obtain ⟨hmem, -⟩ := hs
      simp only [List.mem_singleton] at hmem
      obtain ⟨x, rfl⟩ := toneClause_shape sr args.toneFrequency s hmem.symm
      exact not_isVolumeClause_asetrate x

/-- C8 witness: with the volume service returning multiplier `0.5` and
eval mode `frame`, the clause list contains exactly one
`volume=0.5:eval=frame` clause. -/
theorem stringifyFfmpegFilter_volume_clause_spec_witness :
    ∃ pre post,
      ffmpegFilterClauses 10 (trimAndSetTempo (fun _ => none) 1 0 1 false none).filter
        ⟨"0.5", "frame"⟩ none =
        pre ++ ("volume=" ++ ("0.5" ++ (":eval=" ++ "frame"))) :: post ∧
      (∀ s ∈ pre, ¬ IsVolumeClause s) ∧ (∀ s ∈ post, ¬ IsVolumeClause s) :=
  (stringifyFfmpegFilter_volume_clause_spec 10 (fun _ => none)
    (fun _ => ⟨"0.5", "frame"⟩)
    { trimLeft := 0, trimRight := 1, channels := 2, startInVideo := 0, volume := "v",
      fps := 1, playbackRate := 1, assetDuration := none,
      allowAmplificationDuringRender := false, toneFrequency := none,
      chunkLengthInSeconds := 1, forSeamlessAacConcatenation := false }
    { filter := "[0:a]aformat=sample_fmts=s32:sample_rates=10,atrim=0us:1000000us,volume=0.5:eval=frame[a0]",
      pad_start := none, pad_end := none }
    ⟨"0.5", "frame"⟩ (by decide) rfl (fun t ht => Option.noConfusion ht)).2.2
    (by decide)

end ConcreteEvaluation
